import Mathlib

set_option maxHeartbeats 1000000

namespace PyLinguist

/-- Association-list model of a Python string-valued keyword-argument dict
(the kwargs dicts of pyLinguist/baseTypes.py). Keys are unique in any dict
built by the operations below; lookup returns the first binding. -/
abbrev Params := List (String × String)

/-- Dict lookup, first binding wins. -/
def dget : Params → String → Option String
  | [], _ => none
  | kv :: rest, k => if kv.1 = k then some kv.2 else dget rest k

/-- Dict membership test. -/
def dmem : Params → String → Bool
  | [], _ => false
  | kv :: rest, k => kv.1 = k || dmem rest k

/-- Dict assignment: replace the first binding for the key in place,
append when the key is absent. -/
def dset : Params → String → String → Params
  | [], k, v => [(k, v)]
  | kv :: rest, k, v => if kv.1 = k then (k, v) :: rest else kv :: dset rest k v

/-- Dict deletion of a key. -/
def ddel : Params → String → Params
  | [], _ => []
  | kv :: rest, k => if kv.1 = k then ddel rest k else kv :: ddel rest k

/-- Helper for dict copy: keeps the first binding of each key. -/
def dictCopyAux : Params → List String → Params
  | [], _ => []
  | kv :: rest, seen =>
    if seen.contains kv.1 then dictCopyAux rest seen
    else kv :: dictCopyAux rest (kv.1 :: seen)

/-- Dict copy, modelling the dict comprehension in _form_params. On inputs
with unique keys (every real Python dict) it is the identity. -/
def dictCopy (d : Params) : Params := dictCopyAux d []

/-- The fixed error_codes dict of YaTranslateException
(src/pyLinguist/baseTypes.py, lines 11-21). -/
def error_codes : List (Int × String) :=
  [(400, "Wrong parameter was specified"),
   (401, "Invalid API key"),
   (402, "Blocked API key"),
   (403, "Exceeded the daily limit on the amount of requests"),
   (404, "Exceeded the daily limit on the amount of translated text"),
   (413, "Exceeded the maximum text size"),
   (422, "The text cannot be translated"),
   (501, "The specified translation direction is not supported"),
   (503, "Server not available")]

/-- YaTranslateException carries the argument tuple (message, status_code),
in that order, as built by its __init__. -/
structure YaTranslateException where
  message : String
  status_code : Int
deriving DecidableEq

/-- Exception construction (YaTranslateException.__init__): the message is
looked up in error_codes with default "Unknown code". -/
def YaTranslateException.fromCode (status_code : Int) : YaTranslateException :=
  { message := ((error_codes.find? (fun kv => kv.1 = status_code)).map Prod.snd).getD "Unknown code",
    status_code := status_code }

/-- Exceptions that can propagate through the embedded code: the typed API
exception, transport errors from requests, body-decoding errors, and the
dynamic-typing errors Python would raise. -/
inductive PyErr where
  | yaTranslate (e : YaTranslateException)
  | connectionError
  | jsonDecodeError
  | xmlParseError
  | keyError (key : String)
  | attributeError
deriving DecidableEq

/-- JSON values as decoded by response.json(). -/
inductive Json where
  | null
  | bool (b : Bool)
  | num (n : Int)
  | str (s : String)
  | arr (xs : List Json)
  | obj (kvs : List (String × Json))

/-- Python truthiness of a decoded JSON value. -/
def Json.truthy : Json → Bool
  | .null => false
  | .bool b => b
  | .num n => n != 0
  | .str s => s != ""
  | .arr xs => !xs.isEmpty
  | .obj kvs => !kvs.isEmpty

/-- An XML element as produced by xml.etree.ElementTree.fromstring:
a tag, an optional text, and a list of child elements. -/
inductive XmlElem where
  | mk (tag : String) (text : Option String) (children : List XmlElem)

def XmlElem.tag : XmlElem → String
  | .mk t _ _ => t

def XmlElem.text : XmlElem → Option String
  | .mk _ x _ => x

def XmlElem.children : XmlElem → List XmlElem
  | .mk _ _ c => c

/-- Element.find: first direct child with the given tag, None when absent. -/
def XmlElem.findTag (e : XmlElem) (t : String) : Option XmlElem :=
  e.children.find? (fun c => c.tag = t)

/-- An HTTP response (requests.Response): its status code, the result of
calling .json() on it (which may raise a decode error), and the result of
parsing .content as XML (which may raise a parse error). -/
structure Response where
  status_code : Int
  json : Except PyErr Json
  xmlContent : Except PyErr XmlElem

/-- requests.Response.ok: true exactly when the status code is below 400. -/
def Response.ok (r : Response) : Bool := decide (r.status_code < 400)

/-- The dynamically-typed values a handler can hold in its _cache slot or
return from _get_langs: None, a decoded JSON value, a list of element
texts, an XML element, or a raw response object. -/
inductive PyObj where
  | pyNone
  | jsonV (v : Json)
  | textsV (ts : List (Option String))
  | xmlV (e : XmlElem)
  | respV (r : Response)

/-- Python truthiness of such a value. An ElementTree element is truthy
exactly when it has children; a requests.Response is truthy when it is ok. -/
def PyObj.truthy : PyObj → Bool
  | .pyNone => false
  | .jsonV v => v.truthy
  | .textsV ts => !ts.isEmpty
  | .xmlV e => !e.children.isEmpty
  | .respV r => r.ok

/-- The state of a _YaAPIHandler instance: its four instance attributes. -/
structure Handler where
  _api_key : String
  _json : String
  _cache : PyObj
  _url : String

/-- The class attribute _base_url (the empty string in the source). -/
def _base_url : String := ""

/-- The class attribute _endpoints dict. -/
def _endpoints : Params := [("langs", "getLangs")]

/-- Handler construction (_YaAPIHandler.__init__): a falsy (empty) api_key
raises YaTranslateException(401) before anything else happens; otherwise
the key is stored, _json is ".json" unless the xml flag is set, the cache
starts as None and _url is the base url. The embedding is a pure function
of the arguments alone, so no network transport is ever consulted. -/
def Handler.init (api_key : String) (xml : Bool) : Except PyErr Handler :=
  if api_key = "" then
    .error (.yaTranslate (YaTranslateException.fromCode 401))
  else
    .ok { _api_key := api_key,
          _json := if xml then "" else ".json",
          _cache := .pyNone,
          _url := _base_url }

/-- URL construction (_YaAPIHandler._make_url): an unrecognized endpoint
raises KeyError; a truthy override url is used as base, else the stored
url. -/
def _make_url (h : Handler) (endpoint : String) (url : Option String) : Except PyErr String :=
  match dget _endpoints endpoint with
  | none => .error (.keyError endpoint)
  | some seg =>
    match url with
    | some u => if u ≠ "" then .ok (u ++ seg) else .ok (h._url ++ seg)
    | none => .ok (h._url ++ seg)

/-- Parameter formation (_YaAPIHandler._form_params): copy the supplied
params into a fresh dict, set the api key under the reserved name "key",
then drop a "callback" entry when _json is falsy (XML mode). -/
def _form_params (h : Handler) (params : Params) : Params :=
  let parameters := dictCopy params
  let parameters := dset parameters "key" h._api_key
  if dmem parameters "callback" && h._json = "" then ddel parameters "callback"
  else parameters

/-- A network transport: given url, verb (true for POST), request params and
the index of the request (how many requests were issued before), produce a
response or a transport-level error. The index argument lets the embedding
count requests and let distinct requests observe distinct responses. -/
abbrev Net := String → Bool → Params → Nat → Except PyErr Response

/-- Low-level request (_YaAPIHandler._make_request): issue one HTTP call
(incrementing the request counter), raise YaTranslateException with the
response status code whenever the response is not ok, and otherwise return
the response unmodified. The body is never inspected here. -/
def _make_request (net : Net) (url : String) (post : Bool) (params : Params) (n : Nat) :
    Except PyErr Response × Nat :=
  match net url post params n with
  | .error e => (.error e, n + 1)
  | .ok response =>
    if !response.ok then
      (.error (.yaTranslate (YaTranslateException.fromCode response.status_code)), n + 1)
    else (.ok response, n + 1)

/-- XML request (_YaAPIHandler._make_request_xml): perform the low-level
request (the try/except re-raises unchanged) and parse the body as XML. -/
def _make_request_xml (net : Net) (url : String) (post : Bool) (params : Params) (n : Nat) :
    Except PyErr XmlElem × Nat :=
  match _make_request net url post params n with
  | (.error e, m) => (.error e, m)
  | (.ok response, m) => (response.xmlContent, m)

/-- JSON request (_YaAPIHandler._make_request_json): perform the low-level
request (the try/except re-raises unchanged) and decode the body as JSON. -/
def _make_request_json (net : Net) (url : String) (post : Bool) (params : Params) (n : Nat) :
    Except PyErr Json × Nat :=
  match _make_request net url post params n with
  | (.error e, m) => (.error e, m)
  | (.ok response, m) => (response.json, m)

/-- The effective url after merging a params dict over a dict that already
binds "url" (parameters.update(params) followed by keyword extraction). -/
def effUrl (u0 : String) (params : Params) : String :=
  (dget params "url").getD u0

/-- The effective post flag after the same merge: a string value supplied
under "post" is used with Python string truthiness. -/
def effPost (post : Bool) (params : Params) : Bool :=
  match dget params "post" with
  | some s => s ≠ ""
  | none => post

/-- The params left over after "url" and "post" are extracted as keyword
arguments. -/
def restParams (params : Params) : Params :=
  ddel (ddel params "url") "post"

/-- The three shapes a combined request can return: the raw response (JSONP
path), a parsed XML tree, or a decoded JSON value. -/
inductive CombinedResult where
  | raw (r : Response)
  | xml (e : XmlElem)
  | json (v : Json)

/-- View of a combined-request result as a dynamically-typed value. -/
def CombinedResult.toPyObj : CombinedResult → PyObj
  | .raw r => .respV r
  | .xml e => .xmlV e
  | .json v => .jsonV v

/-- Error/counter-preserving map over a request result. -/
def mapResult {α β : Type} (f : α → β) : Except PyErr α × Nat → Except PyErr β × Nat
  | (.error e, m) => (.error e, m)
  | (.ok a, m) => (.ok (f a), m)

/-- Combined dispatch (_YaAPIHandler.make_combined_request): resolve the
endpoint url first (KeyError propagates before any request), merge the url
and post bindings with the supplied params, then dispatch on the supplied
params: a "callback" entry selects the raw path regardless of format,
otherwise a falsy _json (XML mode) selects the XML path, otherwise the
JSON path. -/
def make_combined_request (net : Net) (h : Handler) (endpoint : String) (post : Bool)
    (params : Params) (n : Nat) : Except PyErr CombinedResult × Nat :=
  match _make_url h endpoint none with
  | .error e => (.error e, n)
  | .ok u0 =>
    let u := effUrl u0 params
    let p := effPost post params
    let rest := restParams params
    if dmem params "callback" then
      mapResult .raw (_make_request net u p rest n)
    else if h._json = "" then
      mapResult .xml (_make_request_xml net u p rest n)
    else
      mapResult .json (_make_request_json net u p rest n)

/-- Language-list retrieval (_YaAPIHandler._get_langs). The params are
formed (with post initially False, overridable by a supplied "post"), a
supplied "callback" bypasses the cache and returns the raw response; else,
when update is set or the cache is falsy, a combined request to "langs" is
made: in JSON mode the response is cached as is, in XML mode the texts of
the children of a truthy "dirs" element are cached, else the texts of the
top-level elements; finally the cache is returned. Calling .find on a
non-element would raise AttributeError (that arm is unreachable through
the dispatch). -/
def _get_langs (net : Net) (h : Handler) (url : Option String) (update : Bool)
    (params : Params) (n : Nat) : Except PyErr (PyObj × Handler) × Nat :=
  let formed := _form_params h params
  let p := effPost false formed
  let rest := ddel formed "post"
  if dmem params "callback" then
    match _make_url h "langs" url with
    | .error e => (.error e, n)
    | .ok u =>
      match _make_request net u p rest n with
      | (.error e, m) => (.error e, m)
      | (.ok r, m) => (.ok (.respV r, h), m)
  else if update || !h._cache.truthy then
    match make_combined_request net h "langs" p rest n with
    | (.error e, m) => (.error e, m)
    | (.ok response, m) =>
      if h._json ≠ "" then
        let c := response.toPyObj
        (.ok (c, { h with _cache := c }), m)
      else
        match response with
        | .xml e =>
          match e.findTag "dirs" with
          | some dirs =>
            if !dirs.children.isEmpty then
              let c := PyObj.textsV (dirs.children.map XmlElem.text)
              (.ok (c, { h with _cache := c }), m)
            else
              let c := PyObj.textsV (e.children.map XmlElem.text)
              (.ok (c, { h with _cache := c }), m)
          | none =>
            let c := PyObj.textsV (e.children.map XmlElem.text)
            (.ok (c, { h with _cache := c }), m)
        | _ => (.error .attributeError, m)
  else (.ok (h._cache, h), n)

/-- Concrete JSON-mode handler, as built by Handler.init "123" false. -/
def hJ : Handler := { _api_key := "123", _json := ".json", _cache := .pyNone, _url := "" }

/-- Concrete XML-mode handler, as built by Handler.init "123" true. -/
def hX : Handler := { _api_key := "123", _json := "", _cache := .pyNone, _url := "" }

/-- hJ after a fetch cached the empty JSON array (a falsy value). -/
def hJempty : Handler := { hJ with _cache := .jsonV (.arr []) }

/-- hJ with a truthy cached language list. -/
def hJfull : Handler := { hJ with _cache := .jsonV (.arr [.str "en"]) }

/-- Successful response whose JSON body is the empty array. -/
def respEmpty : Response :=
  { status_code := 200, json := .ok (.arr []), xmlContent := .error .xmlParseError }

/-- Successful response whose JSON body is a one-element language list. -/
def respRu : Response :=
  { status_code := 200, json := .ok (.arr [.str "ru"]), xmlContent := .error .xmlParseError }

/-- Failing (403) response whose bodies are both unparsable. -/
def respBad : Response :=
  { status_code := 403, json := .error .jsonDecodeError, xmlContent := .error .xmlParseError }

/-- XML response tree holding a dirs element with two direction children. -/
def dirsTree : XmlElem :=
  .mk "Langs" none
    [.mk "dirs" none [.mk "string" (some "en-ru") [], .mk "string" (some "ru-en") []]]

/-- XML response tree with no dirs element, only top-level language
elements. -/
def flatTree : XmlElem :=
  .mk "Langs" none
    [.mk "string" (some "en") [], .mk "string" (some "ru") [], .mk "string" (some "de") []]

/-- Transport that always answers with respEmpty. -/
def netEmpty : Net := fun _ _ _ _ => .ok respEmpty

/-- Transport that always answers with respRu. -/
def netRu : Net := fun _ _ _ _ => .ok respRu

/-- Transport that always answers with the failing respBad. -/
def netBad : Net := fun _ _ _ _ => .ok respBad

/-- Transport that always fails at the connection level. -/
def netFail : Net := fun _ _ _ _ => .error .connectionError

/-- Transport whose responses carry the dirsTree XML body. -/
def netDirs : Net := fun _ _ _ _ =>
  .ok { status_code := 200, json := .error .jsonDecodeError, xmlContent := .ok dirsTree }

/-- Transport whose responses carry the flatTree XML body. -/
def netFlat : Net := fun _ _ _ _ =>
  .ok { status_code := 200, json := .error .jsonDecodeError, xmlContent := .ok flatTree }

/-- Key-validation probe (_YaAPIHandler._ok): run a forced-refresh
_get_langs; any exception is caught, logged as a warning (modelled as the
returned warning list) and turned into False; success yields True with no
warning. The return type is exception-free: nothing escapes. -/
def _ok (net : Net) (h : Handler) (url : Option String) (params : Params) (n : Nat) :
    (Bool × List PyErr) × Handler × Nat :=
  match _get_langs net h url true params n with
  | (.error err, m) => ((false, [err]), h, m)
  | (.ok (_, h2), m) => ((true, []), h2, m)

/-- A key is absent from a dict exactly when lookup gives nothing. -/
theorem dmem_eq_false_iff (d : Params) (k : String) : dmem d k = false ↔ dget d k = none := by
  induction d with
  | nil => simp [dmem, dget]
  | cons kv rest ih =>
    by_cases hk : kv.1 = k
    · simp [dmem, dget, hk]
    · simp [dmem, dget, hk, ih]

/-- Lookup after deletion. -/
theorem dget_ddel (d : Params) (k k' : String) :
    dget (ddel d k) k' = if k' = k then none else dget d k' := by
  induction d with
  | nil => simp [ddel, dget]
  | cons kv rest ih =>
    by_cases h1 : kv.1 = k
    · by_cases h2 : k' = k
      · subst h2
        simp [ddel, dget, h1, ih]
      · have h3 : ¬ kv.1 = k' := fun hx => h2 (hx.symm.trans h1)
        have h4 : ¬ k = k' := fun hx => h2 hx.symm
        simp [ddel, dget, h1, h2, h3, h4, ih]
    · by_cases h3 : kv.1 = k'
      · have h2 : ¬ k' = k := fun hx => h1 (h3.trans hx)
        simp [ddel, dget, h1, h2, h3]
      · simp [ddel, dget, h1, h3, ih]

/-- Lookup after assignment. -/
theorem dget_dset (d : Params) (k v k' : String) :
    dget (dset d k v) k' = if k' = k then some v else dget d k' := by
  induction d with
  | nil =>
    by_cases h : k' = k
    · simp [dset, dget, h]
    · have h2 : ¬ k = k' := fun hx => h hx.symm
      simp [dset, dget, h, h2]
  | cons kv rest ih =>
    by_cases h1 : kv.1 = k
    · by_cases h2 : k' = k
      · simp [dset, dget, h1, h2]
      · have h3 : ¬ kv.1 = k' := fun hx => h2 (hx.symm.trans h1)
        have h4 : ¬ k = k' := fun hx => h2 hx.symm
        simp [dset, dget, h1, h2, h3, h4]
    · by_cases h3 : kv.1 = k'
      · have h2 : ¬ k' = k := fun hx => h1 (h3.trans hx)
        simp [dset, dget, h1, h2, h3]
      · simp [dset, dget, h1, h3, ih]

/-- Lookup through the copy helper: keys already seen are dropped, the rest
look up as in the input. -/
theorem dget_dictCopyAux (d : Params) (seen : List String) (k : String) :
    dget (dictCopyAux d seen) k = if seen.contains k then none else dget d k := by
  induction d generalizing seen with
  | nil => simp [dictCopyAux, dget]
  | cons kv rest ih =>
    by_cases h1 : kv.1 ∈ seen
    · by_cases h2 : k ∈ seen
      · simp [dictCopyAux, dget, h1, h2, ih]
      · have h3 : ¬ kv.1 = k := fun hx => h2 (hx ▸ h1)
        simp [dictCopyAux, dget, h1, h2, h3, ih]
    · by_cases h3 : kv.1 = k
      · subst h3
        simp [dictCopyAux, dget, h1, ih]
      · by_cases h2 : k ∈ seen
        · simp [dictCopyAux, dget, h1, h2, h3, ih]
        · have h4 : ¬ k = kv.1 := fun hx => h3 hx.symm
          have h2' : ¬ k ∈ (kv.1 :: seen) := by simp [h2, h4]
          simp [dictCopyAux, dget, h1, h2, h2', h3, ih]

/-- The dict-comprehension copy preserves lookup. -/
theorem dget_dictCopy (d : Params) (k : String) : dget (dictCopy d) k = dget d k := by
  simp [dictCopy, dget_dictCopyAux]

/-- Zeta-reduced unfolding of _form_params. -/
theorem form_params_eq (h : Handler) (params : Params) :
    _form_params h params =
      if dmem (dset (dictCopy params) "key" h._api_key) "callback" && h._json = "" then
        ddel (dset (dictCopy params) "key" h._api_key) "callback"
      else dset (dictCopy params) "key" h._api_key := rfl

/-- Formed params always bind the reserved key to the api key. -/
theorem form_params_key (h : Handler) (params : Params) :
    dget (_form_params h params) "key" = some h._api_key := by
  rw [form_params_eq]
  split
  · rw [dget_ddel]
    simp [dget_dset]
  · simp [dget_dset]

/-- Formed params preserve any supplied parameter whose name is not the
reserved "key" and (in XML mode) not "callback". -/
theorem form_params_other (h : Handler) (params : Params) (k : String)
    (hk1 : k ≠ "key") (hk2 : h._json = "" → k ≠ "callback") :
    dget (_form_params h params) k = dget params k := by
  rw [form_params_eq]
  split
  · rename_i hcond
    rw [dget_ddel]
    have hx : h._json = "" := by
      rw [Bool.and_eq_true] at hcond
      exact of_decide_eq_true hcond.2
    rw [if_neg (hk2 hx)]
    rw [dget_dset, if_neg hk1, dget_dictCopy]
  · rw [dget_dset, if_neg hk1, dget_dictCopy]

/-- In XML mode the formed params never contain a callback entry. -/
theorem form_params_no_callback_xml (h : Handler) (params : Params)
    (hx : h._json = "") : dmem (_form_params h params) "callback" = false := by
  rw [dmem_eq_false_iff, form_params_eq]
  rcases Bool.eq_false_or_eq_true (dmem (dset (dictCopy params) "key" h._api_key) "callback")
    with hc | hc
  · rw [if_pos (by simp [hc, hx])]
    rw [dget_ddel]
    simp
  · rw [if_neg (by simp [hc])]
    exact (dmem_eq_false_iff _ _).mp hc

/-- When no callback was supplied, the formed params contain none either. -/
theorem form_params_callback_none (h : Handler) (params : Params)
    (hcb : dmem params "callback" = false) :
    dget (_form_params h params) "callback" = none := by
  rw [form_params_eq]
  have hbase : dget (dset (dictCopy params) "key" h._api_key) "callback" = none := by
    rw [dget_dset, if_neg (by decide), dget_dictCopy]
    exact (dmem_eq_false_iff _ _).mp hcb
  split
  · rw [dget_ddel]
    simp
  · exact hbase

/-- The params handed on by _get_langs to the combined request contain no
callback entry when none was supplied. -/
theorem rest_no_callback (h : Handler) (params : Params)
    (hcb : dmem params "callback" = false) :
    dmem (ddel (_form_params h params) "post") "callback" = false := by
  rw [dmem_eq_false_iff, dget_ddel, if_neg (by decide)]
  exact form_params_callback_none h params hcb

/-- The "langs" endpoint always resolves. -/
theorem make_url_langs (h : Handler) : _make_url h "langs" none = .ok (h._url ++ "getLangs") := rfl

/-- mapResult never touches the request counter. -/
theorem mapResult_snd {α β : Type} (f : α → β) (x : Except PyErr α × Nat) :
    (mapResult f x).2 = x.2 := by
  rcases x with ⟨fst, m⟩
  cases fst <;> rfl

/-- A low-level request issues exactly one network call. -/
theorem make_request_snd (net : Net) (url : String) (post : Bool) (params : Params) (n : Nat) :
    (_make_request net url post params n).2 = n + 1 := by
  unfold _make_request
  cases hr : net url post params n with
  | error e => rfl
  | ok r => rcases Bool.eq_false_or_eq_true r.ok with hk | hk <;> simp [hk]

/-- An XML request issues exactly one network call. -/
theorem make_request_xml_snd (net : Net) (url : String) (post : Bool) (params : Params) (n : Nat) :
    (_make_request_xml net url post params n).2 = n + 1 := by
  have hs := make_request_snd net url post params n
  unfold _make_request_xml
  rcases hmr : _make_request net url post params n with ⟨fst, m⟩
  rw [hmr] at hs
  simp at hs
  subst hs
  cases fst <;> rfl

/-- A JSON request issues exactly one network call. -/
theorem make_request_json_snd (net : Net) (url : String) (post : Bool) (params : Params) (n : Nat) :
    (_make_request_json net url post params n).2 = n + 1 := by
  have hs := make_request_snd net url post params n
  unfold _make_request_json
  rcases hmr : _make_request net url post params n with ⟨fst, m⟩
  rw [hmr] at hs
  simp at hs
  subst hs
  cases fst <;> rfl

/-- A combined request to the "langs" endpoint issues exactly one network
call, whatever path is taken and whatever the transport answers. -/
theorem mcr_snd (net : Net) (h : Handler) (post : Bool) (params : Params) (n : Nat) :
    (make_combined_request net h "langs" post params n).2 = n + 1 := by
  unfold make_combined_request
  rw [make_url_langs]
  rcases Bool.eq_false_or_eq_true (dmem params "callback") with hc | hc <;>
    by_cases hj : h._json = "" <;>
      simp [hc, hj, mapResult_snd, make_request_snd, make_request_xml_snd, make_request_json_snd]

/-- Whenever _get_langs goes out to the network (no callback supplied, and
either update forced or a falsy cache), it issues exactly one request. -/
theorem get_langs_fetch_snd (net : Net) (h : Handler) (url : Option String) (update : Bool)
    (params : Params) (n : Nat) (hcb : dmem params "callback" = false)
    (hgo : (update || !h._cache.truthy) = true) :
    (_get_langs net h url update params n).2 = n + 1 := by
  have hs := mcr_snd net h (effPost false (_form_params h params))
    (ddel (_form_params h params) "post") n
  simp only [_get_langs, hcb]
  rw [hgo]
  simp only [Bool.false_eq_true, if_false]
  rw [if_pos trivial]
  rcases hmc : make_combined_request net h "langs" (effPost false (_form_params h params))
    (ddel (_form_params h params) "post") n with ⟨fst, m⟩
  rw [hmc] at hs
  simp at hs
  subst hs
  cases fst with
  | error e => rfl
  | ok res =>
    dsimp only
    by_cases hj : h._json = ""
    · rw [if_neg (fun hne => hne hj)]
      cases res with
      | raw r => rfl
      | json v => rfl
      | xml e =>
        dsimp only
        cases hfd : e.findTag "dirs" with
        | none => rfl
        | some dirs =>
          rcases Bool.eq_false_or_eq_true dirs.children.isEmpty with hne | hne <;> simp [hne]
    · rw [if_pos hj]

/-- C1: Constructing the handler with an empty API key always fails
immediately with YaTranslateException whose status code is 401 and whose
message is "Invalid API key"; since Handler.init is a pure function of its
arguments that takes no transport, the failure occurs at construction time
before any network request can be attempted. Constructing with any
non-empty key succeeds and stores that key. -/
theorem C1_init_key_validation (api_key : String) (xml : Bool) :
    (api_key = "" → Handler.init api_key xml =
      .error (.yaTranslate { message := "Invalid API key", status_code := 401 })) ∧
    (api_key ≠ "" → (Handler.init api_key xml).map Handler._api_key = .ok api_key) := by
  constructor
  · intro hk
    subst hk
    rfl
  · intro hk
    unfold Handler.init
    rw [if_neg hk]
    rfl

/-- C1 witness: the theorem applied at the empty key and at a concrete
non-empty key. -/
theorem C1_witness :
    Handler.init "" false =
      .error (.yaTranslate { message := "Invalid API key", status_code := 401 }) ∧
    (Handler.init "abc" false).map Handler._api_key = .ok "abc" :=
  ⟨(C1_init_key_validation "" false).1 rfl,
   (C1_init_key_validation "abc" false).2 (by decide)⟩

/-- C2: Exception construction is total over the integers and carries the
pair (message, status_code) in that order: every code listed in error_codes
yields its mapped message, and every integer code not in the mapping yields
exactly the literal "Unknown code". -/
theorem C2_exception_mapping (code : Int) (msg : String) :
    ((code, msg) ∈ error_codes →
      YaTranslateException.fromCode code = { message := msg, status_code := code }) ∧
    (code ∉ error_codes.map Prod.fst →
      YaTranslateException.fromCode code = { message := "Unknown code", status_code := code }) := by
  constructor
  · intro hm
    simp only [error_codes, List.mem_cons, List.not_mem_nil, or_false, Prod.mk.injEq] at hm
    rcases hm with ⟨h1, h2⟩|⟨h1, h2⟩|⟨h1, h2⟩|⟨h1, h2⟩|⟨h1, h2⟩|⟨h1, h2⟩|⟨h1, h2⟩|⟨h1, h2⟩|⟨h1, h2⟩ <;>
      (subst h1; subst h2; rfl)
  · intro hm
    simp only [error_codes, List.map_cons, List.map_nil, List.mem_cons, List.not_mem_nil,
      or_false, not_or] at hm
    obtain ⟨h1, h2, h3, h4, h5, h6, h7, h8, h9⟩ := hm
    unfold YaTranslateException.fromCode error_codes
    simp [List.find?, Ne.symm h1, Ne.symm h2, Ne.symm h3, Ne.symm h4, Ne.symm h5,
      Ne.symm h6, Ne.symm h7, Ne.symm h8, Ne.symm h9]

/-- C2 witness: a mapped code and an unmapped code. -/
theorem C2_witness :
    YaTranslateException.fromCode 400 =
      { message := "Wrong parameter was specified", status_code := 400 } ∧
    YaTranslateException.fromCode 300 =
      { message := "Unknown code", status_code := 300 } :=
  ⟨(C2_exception_mapping 400 "Wrong parameter was specified").1 (by decide),
   (C2_exception_mapping 300 "").2 (by decide)⟩

/-- C4 counterexample: a parameter supplied under the reserved name "key"
is not preserved — the handler's API key overwrites it — so the result does
not contain every supplied parameter as the claim states. -/
theorem C4_counterexample :
    _form_params hJ [("key", "other")] = [("key", "123")] ∧
    ¬ ("key", "other") ∈ _form_params hJ [("key", "other")] :=
  ⟨rfl, by decide⟩

/-- C4 amended: parameter formation returns a mapping that binds the
reserved name "key" to the handler's API key; every supplied parameter
whose name is neither "key" nor (in XML mode) "callback" is preserved; in
XML mode the result never contains a callback entry even if one was
supplied; in JSON mode a supplied callback entry is kept. -/
theorem C4_param_formation (h : Handler) (params : Params) :
    dget (_form_params h params) "key" = some h._api_key ∧
    (∀ k v, dget params k = some v → k ≠ "key" → (h._json = "" → k ≠ "callback") →
      dget (_form_params h params) k = some v) ∧
    (h._json = "" → dmem (_form_params h params) "callback" = false) ∧
    (h._json ≠ "" → ∀ v, dget params "callback" = some v →
      dget (_form_params h params) "callback" = some v) := by
  refine ⟨form_params_key h params, ?_, ?_, ?_⟩
  · intro k v hv hk1 hk2
    rw [form_params_other h params k hk1 hk2, hv]
  · intro hx
    exact form_params_no_callback_xml h params hx
  · intro hj v hv
    rw [form_params_other h params "callback" (by decide) (fun hx => absurd hx hj), hv]

/-- C4 witness: the amended theorem applied concretely in both modes. -/
theorem C4_witness :
    dget (_form_params hJ [("ui", "en")]) "key" = some "123" ∧
    dget (_form_params hJ [("ui", "en")]) "ui" = some "en" ∧
    dmem (_form_params hX [("callback", "cb")]) "callback" = false ∧
    dget (_form_params hJ [("callback", "cb")]) "callback" = some "cb" :=
  ⟨(C4_param_formation hJ [("ui", "en")]).1,
   (C4_param_formation hJ [("ui", "en")]).2.1 "ui" "en" rfl (by decide)
     (fun hx => absurd hx (by decide)),
   (C4_param_formation hX [("callback", "cb")]).2.2.1 rfl,
   (C4_param_formation hJ [("callback", "cb")]).2.2.2 (by decide) "cb" rfl⟩

/-- C5: XML-mode language fetch. On a response tree containing a "dirs"
element whose children carry the texts en-ru and ru-en, _get_langs returns
exactly that sequence of texts (each wrapped in `some`, the embedding of
Element.text); on a tree with no "dirs" element but top-level elements with
texts en, ru, de it returns exactly those. One request is issued and the
result is cached. -/
theorem C5_xml_language_lists :
    _get_langs netDirs hX none false [] 0 =
      (.ok (.textsV [some "en-ru", some "ru-en"],
        { hX with _cache := .textsV [some "en-ru", some "ru-en"] }), 1) ∧
    _get_langs netFlat hX none false [] 0 =
      (.ok (.textsV [some "en", some "ru", some "de"],
        { hX with _cache := .textsV [some "en", some "ru", some "de"] }), 1) :=
  ⟨rfl, rfl⟩

/-- C7: every low-level request variant checks the response status before
touching the body: on a non-ok response all three variants raise
YaTranslateException carrying exactly that response's status code — the
quantified response may have unparsable JSON and XML bodies, showing no
parse is attempted — and on an ok status the raw variant returns the
response unmodified. -/
theorem C7_status_failure (net : Net) (url : String) (post : Bool) (params : Params)
    (n : Nat) (r : Response) (hr : net url post params n = .ok r) :
    (r.ok = false →
      _make_request net url post params n =
        (.error (.yaTranslate (YaTranslateException.fromCode r.status_code)), n + 1) ∧
      _make_request_json net url post params n =
        (.error (.yaTranslate (YaTranslateException.fromCode r.status_code)), n + 1) ∧
      _make_request_xml net url post params n =
        (.error (.yaTranslate (YaTranslateException.fromCode r.status_code)), n + 1) ∧
      (YaTranslateException.fromCode r.status_code).status_code = r.status_code) ∧
    (r.ok = true → _make_request net url post params n = (.ok r, n + 1)) := by
  constructor
  · intro hf
    have h1 : _make_request net url post params n =
        (.error (.yaTranslate (YaTranslateException.fromCode r.status_code)), n + 1) := by
      unfold _make_request
      rw [hr]
      simp [hf]
    refine ⟨h1, ?_, ?_, rfl⟩
    · unfold _make_request_json
      rw [h1]
    · unfold _make_request_xml
      rw [h1]
  · intro ht
    unfold _make_request
    rw [hr]
    simp [ht]

/-- C7 witness: a failing response with unparsable bodies, and an ok
response returned raw. -/
theorem C7_witness :
    _make_request netBad "u" false [] 0 =
      (.error (.yaTranslate (YaTranslateException.fromCode 403)), 1) ∧
    _make_request_json netBad "u" false [] 0 =
      (.error (.yaTranslate (YaTranslateException.fromCode 403)), 1) ∧
    _make_request_xml netBad "u" false [] 0 =
      (.error (.yaTranslate (YaTranslateException.fromCode 403)), 1) ∧
    _make_request netRu "u" false [] 0 = (.ok respRu, 1) := by
  have hbad := (C7_status_failure netBad "u" false [] 0 respBad rfl).1 rfl
  have hok := (C7_status_failure netRu "u" false [] 0 respRu rfl).2 rfl
  exact ⟨hbad.1, hbad.2.1, hbad.2.2.1, hok⟩

/-- C8 counterexample: with the format flag left at its source default
(xml=False, i.e. the flag absent) construction yields the suffix ".json" —
JSON mode — not the empty string the claim asserts for the default. -/
theorem C8_counterexample :
    (Handler.init "123" false).map Handler._json = .ok ".json" ∧ (".json" : String) ≠ "" :=
  ⟨rfl, by decide⟩

/-- C8 amended: when the handler is constructed without an explicit format
flag (the xml flag defaulting to false) it is in JSON mode and its derived
format suffix is ".json"; the suffix is the empty string exactly when the
xml flag is set to true. -/
theorem C8_default_format (api_key : String) (xml : Bool) (hk : api_key ≠ "") :
    (Handler.init api_key xml).map Handler._json = .ok (if xml then "" else ".json") ∧
    ((Handler.init api_key xml).map Handler._json = .ok "" ↔ xml = true) := by
  unfold Handler.init
  rw [if_neg hk]
  constructor
  · rfl
  · cases xml
    · apply iff_of_false
      · intro hx
        simp [Except.map] at hx
      · simp
    · exact iff_of_true rfl rfl

/-- C8 witness: the amended theorem at a concrete key, in both flag
positions. -/
theorem C8_witness :
    (Handler.init "123" false).map Handler._json = .ok ".json" ∧
    (Handler.init "123" true).map Handler._json = .ok "" :=
  ⟨(C8_default_format "123" false (by decide)).1,
   (C8_default_format "123" true (by decide)).2.mpr rfl⟩

/-- C9: the key-validation probe performs a forced-refresh language fetch;
whenever that fetch raises any exception the probe logs exactly one warning
and returns false, and whenever the fetch succeeds it returns true with no
warning. Its return type is exception-free, so no exception escapes. -/
theorem C9_key_probe (net : Net) (h : Handler) (url : Option String) (params : Params) (n : Nat) :
    (∀ e m, _get_langs net h url true params n = (.error e, m) →
      _ok net h url params n = ((false, [e]), h, m)) ∧
    (∀ v h2 m, _get_langs net h url true params n = (.ok (v, h2), m) →
      _ok net h url params n = ((true, []), h2, m)) := by
  constructor
  · intro e m hgl
    unfold _ok
    rw [hgl]
  · intro v h2 m hgl
    unfold _ok
    rw [hgl]

/-- C9 witness: a connection failure is logged and reported as false; a
successful fetch is reported as true with no warning. -/
theorem C9_witness :
    _ok netFail hJ none [] 0 = ((false, [PyErr.connectionError]), hJ, 1) ∧
    _ok netRu hJ none [] 0 =
      ((true, []), { hJ with _cache := .jsonV (.arr [.str "ru"]) }, 1) :=
  ⟨(C9_key_probe netFail hJ none [] 0).1 .connectionError 1 rfl,
   (C9_key_probe netRu hJ none [] 0).2 (.jsonV (.arr [.str "ru"]))
     { hJ with _cache := .jsonV (.arr [.str "ru"]) } 1 rfl⟩

/-- C10: the cache-empty test is Python falsiness, not a distinct state: a
handler whose cache holds a successfully fetched but empty result (empty
list or empty mapping) issues a fresh network request on every language
call without the update flag, instead of returning the cached empty
value. -/
theorem C10_falsy_cache_refetch (net : Net) (h : Handler) (url : Option String)
    (params : Params) (n : Nat) (hcb : dmem params "callback" = false)
    (hcache : h._cache = .jsonV (.arr []) ∨ h._cache = .jsonV (.obj [])) :
    (_get_langs net h url false params n).2 = n + 1 := by
  refine get_langs_fetch_snd net h url false params n hcb ?_
  rcases hcache with hc | hc <;> rw [hc] <;> rfl

/-- C10 witness: after caching the empty list, the next call issues request
number six when five requests had gone before. -/
theorem C10_witness : (_get_langs netEmpty hJempty none false [] 5).2 = 6 :=
  C10_falsy_cache_refetch netEmpty hJempty none [] 5 rfl (Or.inl rfl)

/-- C6: the combined request dispatch selects exactly one of three paths
once the endpoint resolves: a supplied callback parameter yields the
raw-response path regardless of the configured format; otherwise XML mode
yields the XML-decoding path and JSON mode the JSON-decoding path. -/
theorem C6_dispatch (net : Net) (h : Handler) (endpoint : String) (post : Bool)
    (params : Params) (n : Nat) (u0 : String) (hu : _make_url h endpoint none = .ok u0) :
    (dmem params "callback" = true →
      make_combined_request net h endpoint post params n =
        mapResult .raw
          (_make_request net (effUrl u0 params) (effPost post params) (restParams params) n)) ∧
    (dmem params "callback" = false → h._json = "" →
      make_combined_request net h endpoint post params n =
        mapResult .xml
          (_make_request_xml net (effUrl u0 params) (effPost post params) (restParams params) n)) ∧
    (dmem params "callback" = false → h._json ≠ "" →
      make_combined_request net h endpoint post params n =
        mapResult .json
          (_make_request_json net (effUrl u0 params) (effPost post params) (restParams params) n)) := by
  unfold make_combined_request
  rw [hu]
  refine ⟨fun hc => ?_, fun hc hj => ?_, fun hc hj => ?_⟩
  · simp [hc]
  · simp [hc, hj]
  · simp [hc, hj]

/-- C6 witness: the dispatch applied on each of the three paths. -/
theorem C6_witness :
    make_combined_request netRu hJ "langs" false [("callback", "cb")] 0 =
      mapResult .raw (_make_request netRu (effUrl "getLangs" [("callback", "cb")])
        (effPost false [("callback", "cb")]) (restParams [("callback", "cb")]) 0) ∧
    make_combined_request netDirs hX "langs" false [] 0 =
      mapResult .xml (_make_request_xml netDirs (effUrl "getLangs" [])
        (effPost false []) (restParams []) 0) ∧
    make_combined_request netRu hJ "langs" false [] 0 =
      mapResult .json (_make_request_json netRu (effUrl "getLangs" [])
        (effPost false []) (restParams []) 0) :=
  ⟨(C6_dispatch netRu hJ "langs" false [("callback", "cb")] 0 "getLangs" rfl).1 rfl,
   (C6_dispatch netDirs hX "langs" false [] 0 "getLangs" rfl).2.1 rfl rfl,
   (C6_dispatch netRu hJ "langs" false [] 0 "getLangs" rfl).2.2 rfl (by decide)⟩

/-- C3 counterexample: in JSON mode a successful language fetch can store a
falsy (empty) value; the next call without the update flag then issues a
fresh network request — the request counter moves from 1 to 2 — instead of
returning the cached value with no network traffic, refuting the
unconditional claim. -/
theorem C3_counterexample :
    _get_langs netEmpty hJ none false [] 0 = (.ok (.jsonV (.arr []), hJempty), 1) ∧
    (_get_langs netEmpty hJempty none false [] 1).2 = 2 :=
  ⟨rfl, rfl⟩

/-- C3 amended: for a JSON-mode handler whose cache holds a truthy value —
which is what a successful fetch of a non-empty language list leaves behind
— every call without the update flag and without a callback parameter
returns the identical cached value and issues no network request (the
result is the same for every transport and the request counter is
unchanged); calling with the update flag set issues exactly one new request
for every transport, and for a transport answering with an ok response
whose JSON body decodes, returns and caches that freshly parsed result. -/
theorem C3_json_cache (h : Handler) (url : Option String) (params : Params) (n : Nat)
    (hjson : h._json ≠ "") (hcb : dmem params "callback" = false)
    (hcache : h._cache.truthy = true) :
    (∀ net : Net, _get_langs net h url false params n = (.ok (h._cache, h), n)) ∧
    (∀ net : Net, (_get_langs net h url true params n).2 = n + 1) ∧
    (∀ (net : Net) (r : Response) (v : Json), (∀ u p ps m, net u p ps m = .ok r) →
      r.ok = true → r.json = .ok v →
      _get_langs net h url true params n =
        (.ok (.jsonV v, { h with _cache := .jsonV v }), n + 1)) := by
  refine ⟨?_, ?_, ?_⟩
  · intro net
    simp only [_get_langs, hcb]
    rw [if_neg (by simp)]
    rw [if_neg (by simp [hcache])]
  · intro net
    exact get_langs_fetch_snd net h url true params n hcb (by simp)
  · intro net r v hnet hok hjson2
    have hrest := rest_no_callback h params hcb
    have hmcr : make_combined_request net h "langs" (effPost false (_form_params h params))
        (ddel (_form_params h params) "post") n = (.ok (.json v), n + 1) := by
      unfold make_combined_request
      rw [make_url_langs]
      dsimp only
      rw [if_neg (by simp [hrest])]
      rw [if_neg hjson]
      unfold _make_request_json _make_request
      rw [hnet]
      dsimp only
      rw [hok]
      rw [if_neg (by simp)]
      dsimp only
      rw [hjson2]
      rfl
    simp only [_get_langs, hcb]
    rw [if_neg (by simp)]
    rw [if_pos (by simp)]
    rw [hmcr]
    dsimp only
    rw [if_pos hjson]
    rfl

/-- C3 witness: with a truthy cache the value is served without consulting
even a failing transport, and a forced update fetches, returns and caches
the fresh list. -/
theorem C3_witness :
    _get_langs netFail hJfull none false [] 0 = (.ok (hJfull._cache, hJfull), 0) ∧
    _get_langs netRu hJfull none true [] 0 =
      (.ok (.jsonV (.arr [.str "ru"]), { hJfull with _cache := .jsonV (.arr [.str "ru"]) }), 1) := by
  have hc := C3_json_cache hJfull none [] 0 (by decide) rfl rfl
  exact ⟨hc.1 netFail, hc.2.2 netRu respRu (.arr [.str "ru"]) (fun _ _ _ _ => rfl) rfl rfl⟩

end PyLinguist
